import Mathlib

/-!
Verification of the low-level input capture and virtual output device layer
of the keymapper daemon, embedded shallowly from:
  - `src/server/windows/Devices.cpp` (Interception capture, device roster,
    hardware-id identity reconciliation),
  - the macOS `VirtualDevice` implementation (Karabiner DriverKit client:
    connection state machine, held-key sets, raw `send_event` boundary).
Machine integers are modelled as `Nat`/`Int` with explicit masking where the
C++ code truncates; fallible operations return `Option`; the null-separated
`REG_MULTI_SZ` hardware-id strings are modelled as lists of entries.
-/

namespace Keymapper

/-- KeyState of the canonical event model (`Down`/`Up` transitions). -/
inductive KeyState where
  | Down
  | Up
deriving DecidableEq

namespace Windows

/-! ## Hardware-id matching (`Devices.cpp`, anonymous namespace)

`get_vid_pid_rev` parses a `HID\VID_x&PID_x&REV_x`-shaped hardware id with
`swscanf_s`; `match_hardware_ids` walks two null-separated id lists.  A
null-separated list is modelled as `List String` (one element per entry);
the `%x` conversions of `swscanf_s` are modelled as one-or-more hexadecimal
digits (the optional sign / `0x` prefix / leading-whitespace forms accepted
by `%x` do not occur in Windows hardware ids). -/

/-- Value of a single hexadecimal digit, `none` for a non-digit. -/
def hexDigit (c : Char) : Option Nat :=
  if '0' ≤ c ∧ c ≤ '9' then some (c.toNat - 48)
  else if 'a' ≤ c ∧ c ≤ 'f' then some (c.toNat - 87)
  else if 'A' ≤ c ∧ c ≤ 'F' then some (c.toNat - 55)
  else none

/-- Consume a maximal run of hexadecimal digits, most significant first. -/
def takeHex : List Char → Nat → Nat × List Char
  | [], acc => (acc, [])
  | c :: rest, acc =>
    match hexDigit c with
    | some d => takeHex rest (acc * 16 + d)
    | none => (acc, c :: rest)

/-- One `%x` conversion: requires at least one hexadecimal digit. -/
def parseHexNum (l : List Char) : Option (Nat × List Char) :=
  match l with
  | [] => none
  | c :: _ => if (hexDigit c).isSome then some (takeHex l 0) else none

/-- Consume an expected literal character sequence (the literal parts of the
`swscanf_s` format string), failing on any mismatch. -/
def dropPrefixChars : List Char → List Char → Option (List Char)
  | [], l => some l
  | _ :: _, [] => none
  | p :: ps, c :: cs => if c = p then dropPrefixChars ps cs else none

/-- `get_vid_pid_rev` (`Devices.cpp:125`): parse the
`(vendor, product, revision)` triple out of a `HID\VID_x&PID_x&REV_x`-shaped
hardware id; trailing characters (such as `\MI_00`) are ignored, exactly as
`swscanf_s` ignores input past the last conversion. -/
def get_vid_pid_rev (s : String) : Option (Nat × Nat × Nat) := do
  let r1 ← dropPrefixChars "HID\\VID_".toList s.toList
  let (vid, r2) ← parseHexNum r1
  let r3 ← dropPrefixChars "&PID_".toList r2
  let (pid, r4) ← parseHexNum r3
  let r5 ← dropPrefixChars "&REV_".toList r4
  let (rev, _) ← parseHexNum r5
  pure (vid, pid, rev)

/-- `match_hardware_ids` (`Devices.cpp:132`): an entry of `list_a` that
contains a backslash matches an entry of `list_b` either by exact string
equality or by equality of the parsed vendor/product/revision triples. -/
def match_hardware_ids (list_a list_b : List String) : Bool :=
  list_a.any fun a =>
    a.toList.contains '\\' && list_b.any fun b =>
      a == b || ((get_vid_pid_rev a).isSome && get_vid_pid_rev a == get_vid_pid_rev b)

/-- Inner loop of the instrumented matcher: first entry of `list_b` accepted
against the fixed entry `a`, with the source's test order (exact equality
first, then the parsed triple comparison). -/
def match_entry_reason (a : String) : List String → Option (String × String × Bool)
  | [] => none
  | b :: bs =>
    if a == b then some (a, b, true)
    else if (get_vid_pid_rev a).isSome && get_vid_pid_rev a == get_vid_pid_rev b then
      some (a, b, false)
    else match_entry_reason a bs

/-- Instrumented variant of `match_hardware_ids` that reports the first
`(entry_a, entry_b)` pair the algorithm accepts, in the source's iteration
and test order, together with a flag telling which test established the
match: `true` for exact string equality, `false` for the parsed
vendor/product/revision triple comparison. -/
def match_hardware_ids_reason : List String → List String → Option (String × String × Bool)
  | [], _ => none
  | a :: rest, list_b =>
    match (if a.toList.contains '\\' then match_entry_reason a list_b else none) with
    | some r => some r
    | none => match_hardware_ids_reason rest list_b

/-! ## Canonical events and Interception strokes (`Devices.cpp:18`..`123`)

The `Key` enum (`runtime/KeyEvent.h`) is not under `src/`.  Modelled from the
spec: keyboard keys fold scan code plus extended-key flag into a single
16-bit key space (`Key.code`), and the mouse contributes five logical
buttons and four directional wheel keys; `Key.none` is the null key.  The
enum's numeric values are needed only where the C++ truncates the enum to an
integer (`Key.toCode` below). -/

inductive Key where
  | none
  | code (c : Nat)
  | buttonLeft
  | buttonRight
  | buttonMiddle
  | buttonBack
  | buttonForward
  | wheelUp
  | wheelDown
  | wheelLeft
  | wheelRight
deriving DecidableEq

/-- Modelled from the spec: the numeric value the C++ obtains by casting the
`Key` enum to an integer.  Keyboard keys carry their folded 16-bit scan code;
the enum values of the button and wheel keys are not under `src/`, so they
are fixed, distinct placeholders (the claims never depend on them). -/
def Key.toCode : Key → Nat
  | .none => 0
  | .code c => c
  | .buttonLeft => 0xF1
  | .buttonRight => 0xF2
  | .buttonMiddle => 0xF3
  | .buttonBack => 0xF4
  | .buttonForward => 0xF5
  | .wheelUp => 0xF6
  | .wheelDown => 0xF7
  | .wheelLeft => 0xF8
  | .wheelRight => 0xF9

/-- Canonical event (`KeyEvent`): key, transition state, and the optional
signed magnitude (`value_t`, zero when absent, carried by wheel events). -/
structure KeyEvent where
  key : Key
  state : KeyState
  value : Int := 0
deriving DecidableEq

/-- `InterceptionKeyStroke`: code, state bitmask, information. -/
structure InterceptionKeyStroke where
  code : Nat
  state : Nat
  information : Nat := 0
deriving DecidableEq

/-- `InterceptionMouseStroke`: state bitmask, flags, wheel delta (`rolling`,
a C `short` in the driver header), coordinates and information. -/
structure InterceptionMouseStroke where
  state : Nat
  flags : Nat := 0
  rolling : Int := 0
  x : Int := 0
  y : Int := 0
  information : Nat := 0
deriving DecidableEq

/-! Constants of `interception.h` (the driver library header, not under
`src/`; values are the library's published filter/state constants). -/

def INTERCEPTION_KEY_DOWN : Nat := 0x00

def INTERCEPTION_KEY_UP : Nat := 0x01

def INTERCEPTION_KEY_E0 : Nat := 0x02

def INTERCEPTION_MOUSE_BUTTON_1_DOWN : Nat := 0x001

def INTERCEPTION_MOUSE_BUTTON_1_UP : Nat := 0x002

def INTERCEPTION_MOUSE_BUTTON_2_DOWN : Nat := 0x004

def INTERCEPTION_MOUSE_BUTTON_2_UP : Nat := 0x008

def INTERCEPTION_MOUSE_BUTTON_3_DOWN : Nat := 0x010

def INTERCEPTION_MOUSE_BUTTON_3_UP : Nat := 0x020

def INTERCEPTION_MOUSE_BUTTON_4_DOWN : Nat := 0x040

def INTERCEPTION_MOUSE_BUTTON_4_UP : Nat := 0x080

def INTERCEPTION_MOUSE_BUTTON_5_DOWN : Nat := 0x100

def INTERCEPTION_MOUSE_BUTTON_5_UP : Nat := 0x200

def INTERCEPTION_MOUSE_WHEEL : Nat := 0x400

def INTERCEPTION_MOUSE_HWHEEL : Nat := 0x800

def INTERCEPTION_MAX_KEYBOARD : Nat := 10

def INTERCEPTION_MAX_DEVICE : Nat := 20

def WHEEL_DELTA : Int := 120

/-- `get_key_event` keyboard overload (`Devices.cpp:18`): fold the scan code
and the E0 extended flag into the 16-bit key space; up/down from the state
bitmask. -/
def get_key_event_keyboard (stroke : InterceptionKeyStroke) : KeyEvent :=
  { key := .code (stroke.code ||| (if stroke.state &&& INTERCEPTION_KEY_E0 ≠ 0 then 0xE000 else 0)),
    state := if stroke.state &&& INTERCEPTION_KEY_UP ≠ 0 then .Up else .Down,
    value := 0 }

/-- `get_key_event` mouse overload (`Devices.cpp:26`): button bitmasks map to
the five logical buttons; wheel strokes map to the four directional wheel
keys, reported as `Up` (the Down transition is synthesized by the server)
with the absolute delta as value. -/
def get_key_event_mouse (stroke : InterceptionMouseStroke) : KeyEvent :=
  if stroke.state &&& INTERCEPTION_MOUSE_BUTTON_1_DOWN ≠ 0 ∨
     stroke.state &&& INTERCEPTION_MOUSE_BUTTON_1_UP ≠ 0 then
    { key := .buttonLeft,
      state := if stroke.state &&& INTERCEPTION_MOUSE_BUTTON_1_UP ≠ 0 then .Up else .Down,
      value := 0 }
  else if stroke.state &&& INTERCEPTION_MOUSE_BUTTON_2_DOWN ≠ 0 ∨
     stroke.state &&& INTERCEPTION_MOUSE_BUTTON_2_UP ≠ 0 then
    { key := .buttonRight,
      state := if stroke.state &&& INTERCEPTION_MOUSE_BUTTON_2_UP ≠ 0 then .Up else .Down,
      value := 0 }
  else if stroke.state &&& INTERCEPTION_MOUSE_BUTTON_3_DOWN ≠ 0 ∨
     stroke.state &&& INTERCEPTION_MOUSE_BUTTON_3_UP ≠ 0 then
    { key := .buttonMiddle,
      state := if stroke.state &&& INTERCEPTION_MOUSE_BUTTON_3_UP ≠ 0 then .Up else .Down,
      value := 0 }
  else if stroke.state &&& INTERCEPTION_MOUSE_BUTTON_4_DOWN ≠ 0 ∨
     stroke.state &&& INTERCEPTION_MOUSE_BUTTON_4_UP ≠ 0 then
    { key := .buttonBack,
      state := if stroke.state &&& INTERCEPTION_MOUSE_BUTTON_4_UP ≠ 0 then .Up else .Down,
      value := 0 }
  else if stroke.state &&& INTERCEPTION_MOUSE_BUTTON_5_DOWN ≠ 0 ∨
     stroke.state &&& INTERCEPTION_MOUSE_BUTTON_5_UP ≠ 0 then
    { key := .buttonForward,
      state := if stroke.state &&& INTERCEPTION_MOUSE_BUTTON_5_UP ≠ 0 then .Up else .Down,
      value := 0 }
  else if stroke.state &&& INTERCEPTION_MOUSE_WHEEL ≠ 0 then
    { key := if stroke.rolling < 0 then .wheelDown else .wheelUp,
      state := .Up,
      value := |stroke.rolling| }
  else if stroke.state &&& INTERCEPTION_MOUSE_HWHEEL ≠ 0 then
    { key := if stroke.rolling < 0 then .wheelLeft else .wheelRight,
      state := .Up,
      value := |stroke.rolling| }
  else
    { key := .none, state := .Up, value := 0 }

/-- `get_interception_key_stroke` (`Devices.cpp:77`): truncate the key to an
unsigned short; when any of the `0xE000` bits is set, clear them and set the
E0 flag instead. -/
def get_interception_key_stroke (event : KeyEvent) : InterceptionKeyStroke :=
  let scan_code := event.key.toCode % 65536
  let state := if event.state = .Up then INTERCEPTION_KEY_UP else INTERCEPTION_KEY_DOWN
  if scan_code &&& 0xE000 ≠ 0 then
    { code := scan_code &&& 0x1FFF, state := state ||| INTERCEPTION_KEY_E0 }
  else
    { code := scan_code, state := state }

/-- `get_interception_mouse_stroke` (`Devices.cpp:88`): buttons map back to
their down/up bitmasks; wheel keys produce a wheel stroke whose delta is the
event value (defaulting to `WHEEL_DELTA`), negated for the down/left
directions. -/
def get_interception_mouse_stroke (event : KeyEvent) : InterceptionMouseStroke :=
  let down := event.state = KeyState.Down
  match event.key with
  | .buttonLeft =>
    { state := if down then INTERCEPTION_MOUSE_BUTTON_1_DOWN else INTERCEPTION_MOUSE_BUTTON_1_UP }
  | .buttonRight =>
    { state := if down then INTERCEPTION_MOUSE_BUTTON_2_DOWN else INTERCEPTION_MOUSE_BUTTON_2_UP }
  | .buttonMiddle =>
    { state := if down then INTERCEPTION_MOUSE_BUTTON_3_DOWN else INTERCEPTION_MOUSE_BUTTON_3_UP }
  | .buttonBack =>
    { state := if down then INTERCEPTION_MOUSE_BUTTON_4_DOWN else INTERCEPTION_MOUSE_BUTTON_4_UP }
  | .buttonForward =>
    { state := if down then INTERCEPTION_MOUSE_BUTTON_5_DOWN else INTERCEPTION_MOUSE_BUTTON_5_UP }
  | .wheelUp | .wheelDown | .wheelLeft | .wheelRight =>
    let vertical := event.key = Key.wheelUp ∨ event.key = Key.wheelDown
    let negative := event.key = Key.wheelDown ∨ event.key = Key.wheelLeft
    let value := (if event.value ≠ 0 then event.value else WHEEL_DELTA) *
      (if negative then -1 else 1)
    { state := if vertical then INTERCEPTION_MOUSE_WHEEL else INTERCEPTION_MOUSE_HWHEEL,
      rolling := value }
  | _ => { state := 0 }

/-- Native stroke: the `InterceptionStroke` buffer viewed either as a
keyboard stroke or as a mouse stroke. -/
inductive Stroke where
  | keyboard (s : InterceptionKeyStroke)
  | mouse (s : InterceptionMouseStroke)
deriving DecidableEq

/-- Modelled from the spec: `is_keyboard_key` (`runtime/KeyEvent.h`, not
under `src/`) distinguishes keyboard keys from the nine logical mouse keys;
`Devices::send_input` uses it to route an event to the keyboard or the mouse
conversion. -/
def is_keyboard_key : Key → Bool
  | .code _ => true
  | .none => true
  | _ => false

/-- Outbound conversion of a canonical event to a native stroke
(`send_keyboard_input` / `send_mouse_input`, routed as `Devices::send_input`
routes on `is_keyboard_key`). -/
def canonical_to_native (event : KeyEvent) : Stroke :=
  if is_keyboard_key event.key then .keyboard (get_interception_key_stroke event)
  else .mouse (get_interception_mouse_stroke event)

/-- Inbound conversion of a native stroke to a canonical event (the two
`get_key_event` overloads, dispatched on the stroke view as `thread_func`
dispatches on `interception_is_keyboard`). -/
def native_to_canonical : Stroke → KeyEvent
  | .keyboard s => get_key_event_keyboard s
  | .mouse s => get_key_event_mouse s

/-- The four directional wheel keys. -/
def isWheelKey : Key → Bool
  | .wheelUp | .wheelDown | .wheelLeft | .wheelRight => true
  | _ => false

/-- Representable canonical events: keyboard keys are a folded 16-bit scan
code whose three `0xE000` bits are all clear (plain codes) or all set
(extended codes, `0xE000` offset), buttons are unconstrained, and wheel
events carry a positive magnitude that fits the driver's C `short` delta. -/
def representable (e : KeyEvent) : Bool :=
  match e.key with
  | .none => false
  | .code c => decide (c < 65536) && (c &&& 0xE000 == 0 || c &&& 0xE000 == 0xE000)
  | .buttonLeft | .buttonRight | .buttonMiddle | .buttonBack | .buttonForward => true
  | .wheelUp | .wheelDown | .wheelLeft | .wheelRight =>
    decide (1 ≤ e.value) && decide (e.value ≤ 32767)

/-! ## Capture thread and identity reconciliation (`Devices.cpp:152`..`311`)

`HANDLE`s are modelled as `Nat` with `0` for the null handle, driver device
slots as `Nat` (`1..10` keyboards, `11..20` mice per the Interception
library), and the two `std::map` caches as association lists (a `lookup`
miss is the `operator[]` zero default). -/

/-- Modelled from the spec: numeric value of the `KeyState` enum
(`runtime/KeyEvent.h`, not under `src/`); both transitions are small values,
far below the 5-bit mask of the message encoding. -/
def KeyState.toCode : KeyState → Nat
  | .Up => 0
  | .Down => 1

/-- Encoding of a canonical event into the `WPARAM` word handed to the host
(`Devices.cpp:303`): `MAKEWPARAM(event.key, state & 0x1F | (value & 0x7FF) << 5)`
keeps the low 16 bits of the key, the low 5 bits of the state, and the low
11 bits of the value (`value & 0x7FF` on a two's-complement `int` equals the
mathematical `value mod 2^11`). -/
def encode_input_message (e : KeyEvent) : Nat :=
  (e.key.toCode % 65536) |||
    ((((KeyState.toCode e.state &&& 0x1F) ||| ((e.value % 2048).toNat <<< 5)) % 65536) <<< 16)

/-- State of the `Interception` capture component: attach-time hardware-id
registrations, the bidirectional slot/handle identity map, and the
most-recent keyboard and mouse slots. -/
structure Interception where
  handle_with_hardware_ids : List (Nat × List String)
  device_by_handle : List (Nat × Nat)
  handle_by_device : List (Nat × Nat)
  last_keyboard : Nat
  last_mouse : Nat
deriving DecidableEq

/-- Read of a `std::map<_, HANDLE>`-style cache: a missing entry reads as the
zero default that `operator[]` would value-initialize. -/
def lookup0 (m : List (Nat × Nat)) (k : Nat) : Nat := (m.lookup k).getD 0

/-- `Interception::get_device_handle_by_hardware_id` (`Devices.cpp:262`):
first registered device whose hardware-id list matches, else the null
handle. -/
def get_device_handle_by_hardware_id (st : Interception) (ids : List String) : Nat :=
  match st.handle_with_hardware_ids.find? (fun p => match_hardware_ids p.2 ids) with
  | some p => p.1
  | none => 0

/-- `Interception::get_device_handle` (`Devices.cpp:269`): consult the cached
identity map; on a miss, fall back to hardware-id matching against the
driver-reported ids (`hwids`, the `interception_get_hardware_id` query) and
cache a successful resolution in both directions. -/
def get_device_handle (st : Interception) (hwids : Nat → List String) (device : Nat) :
    Nat × Interception :=
  let handle := lookup0 st.handle_by_device device
  if handle ≠ 0 then (handle, st)
  else
    let h := get_device_handle_by_hardware_id st (hwids device)
    if h ≠ 0 then
      (h, { st with
              handle_by_device := (device, h) :: st.handle_by_device,
              device_by_handle := (h, device) :: st.device_by_handle })
    else (0, st)

/-- `interception_is_keyboard` (driver library): slots `1..10` are
keyboards. -/
def is_keyboard (device : Nat) : Bool :=
  1 ≤ device && device ≤ INTERCEPTION_MAX_KEYBOARD

/-- Observable outcome of one iteration of `Interception::thread_func` for a
received stroke: the updated component state, the `(wparam, lparam)` of the
`SendMessage` call to the host when one was made, and the stroke re-injected
to the driver when one was. -/
structure ThreadStepResult where
  st : Interception
  host_called : Option (Nat × Nat)
  injected : Option Stroke
deriving DecidableEq

/-- One iteration of `Interception::thread_func` (`Devices.cpp:279`) after
`interception_receive` yields `stroke` from slot `device`: convert the
stroke view to a canonical event, resolve the slot to an OS handle, and if
resolved update the most-recent device slot and deliver the encoded event to
the host (`host` is the `SendMessageA` result compared against 1); an
unresolved slot or a not-consumed event re-injects the stroke unchanged. -/
def thread_step (st : Interception) (hwids : Nat → List String)
    (host : Nat → Nat → Bool) (device : Nat) (stroke : Stroke) : ThreadStepResult :=
  let event := native_to_canonical stroke
  let r := get_device_handle st hwids device
  let device_handle := r.1
  let st1 := r.2
  if device_handle ≠ 0 then
    let st2 := if is_keyboard device then { st1 with last_keyboard := device }
      else { st1 with last_mouse := device }
    if host (encode_input_message event) device_handle then
      { st := st2, host_called := some (encode_input_message event, device_handle),
        injected := none }
    else
      { st := st2, host_called := some (encode_input_message event, device_handle),
        injected := some stroke }
  else
    { st := st1, host_called := none, injected := some stroke }

/-! ## Device roster and filter evaluation (`Devices.cpp:315`..`481`)

The source keeps two pairs of parallel vectors (`m_device_handles` /
`m_device_descs` and their `m_ignored_*` counterparts), mutated at the same
indices; each pair is modelled as one list of `(handle, descriptor)`
entries. -/

/-- Device descriptor: display name and persistent instance id. -/
structure DeviceDesc where
  name : String
  id : String
deriving DecidableEq

/-- Modelled from the spec: a grab filter (`GrabDeviceFilter`, not under
`src/`) is a name-or-id pattern together with an allow/deny polarity. -/
structure GrabDeviceFilter where
  pattern : String
  by_id : Bool
  deny : Bool
deriving DecidableEq

/-- Modelled from the spec: `evaluate_grab_filters` (not under `src/`) walks
the ordered allow/deny rules; every rule whose pattern matches the device
name (or instance id) overrides the current classification, starting from
the given initial default (the call site passes `true`). -/
def evaluate_grab_filters (filters : List GrabDeviceFilter) (name id : String)
    (initial : Bool) : Bool :=
  filters.foldl (fun acc f => if (if f.by_id then id else name) == f.pattern then !f.deny else acc)
    initial

/-- State of the `Devices` component: host window, whether the Interception
layer was set up, the active grab filters, and the captured/ignored roster
partitions. -/
structure Devices where
  window : Nat
  has_interception : Bool
  grab_filters : List GrabDeviceFilter
  device_handles : List (Nat × DeviceDesc)
  ignored_device_handles : List (Nat × DeviceDesc)
deriving DecidableEq

/-- Classification of one device entry against the roster's current filter
set (the `evaluate_grab_filters(m_grab_filters, desc.name, desc.id, true)`
call in `apply_device_filters`). -/
def grabs (filters : List GrabDeviceFilter) (e : Nat × DeviceDesc) : Bool :=
  evaluate_grab_filters filters e.2.name e.2.id true

/-- `Devices::reset_device_filters` (`Devices.cpp:454`): move every ignored
device back into the main collection and clear the ignored partition. -/
def reset_device_filters (d : Devices) : Devices :=
  { d with
      device_handles := d.device_handles ++ d.ignored_device_handles,
      ignored_device_handles := [] }

/-- The scan of `Devices::apply_device_filters` (`Devices.cpp:465`): walk the
captured collection in order, keep entries the filters grab, and move the
others out in scan order. -/
def apply_scan (filters : List GrabDeviceFilter) :
    List (Nat × DeviceDesc) → List (Nat × DeviceDesc) × List (Nat × DeviceDesc)
  | [] => ([], [])
  | e :: rest =>
    let r := apply_scan filters rest
    if grabs filters e then (e :: r.1, r.2) else (r.1, e :: r.2)

/-- `Devices::apply_device_filters` (`Devices.cpp:465`): partition the main
collection by the filter verdict, appending the moved entries to the ignored
partition. -/
def apply_device_filters (d : Devices) : Devices :=
  let r := apply_scan d.grab_filters d.device_handles
  { d with
      device_handles := r.1,
      ignored_device_handles := d.ignored_device_handles ++ r.2 }

/-- `Devices::set_grab_filters` (`Devices.cpp:448`): reset the partitions,
install the new filter list wholesale, and repartition. -/
def set_grab_filters (d : Devices) (filters : List GrabDeviceFilter) : Devices :=
  apply_device_filters { (reset_device_filters d) with grab_filters := filters }

/-- `Devices::on_device_attached` (`Devices.cpp:353`), success path: once the
device's name and instance id resolve, reset the partitions, append the new
entry, and repartition (a failed property query returns before touching the
roster). -/
def on_device_attached (d : Devices) (handle : Nat) (desc : DeviceDesc) : Devices :=
  let d1 := reset_device_filters d
  apply_device_filters
    { d1 with device_handles := d1.device_handles ++ [(handle, desc)] }

/-- `Devices::get_device_index` (`Devices.cpp:431`): position of a non-null
handle in the main collection. -/
def get_device_index (l : List (Nat × DeviceDesc)) (handle : Nat) : Option Nat :=
  if handle = 0 then none else l.findIdx? (fun e => e.1 = handle)

/-- `Devices::on_device_removed` (`Devices.cpp:421`): reset the partitions,
erase the entry holding the handle (if any), and repartition. -/
def on_device_removed (d : Devices) (handle : Nat) : Devices :=
  let d1 := reset_device_filters d
  let d2 := match get_device_index d1.device_handles handle with
    | some i => { d1 with device_handles := d1.device_handles.eraseIdx i }
    | none => d1
  apply_device_filters d2

/-- The full set of known devices: both roster partitions together. -/
def known_devices (d : Devices) : List (Nat × DeviceDesc) :=
  d.device_handles ++ d.ignored_device_handles

/-- Roster partition invariant: every device entry is in the captured
partition exactly when it is known and grabbed by the active filters, in the
ignored partition exactly when it is known and not grabbed, and never in
both. -/
def partition_ok (d : Devices) : Prop :=
  ∀ e, (e ∈ d.device_handles ↔ e ∈ known_devices d ∧ grabs d.grab_filters e = true) ∧
    (e ∈ d.ignored_device_handles ↔ e ∈ known_devices d ∧ grabs d.grab_filters e = false) ∧
    ¬(e ∈ d.device_handles ∧ e ∈ d.ignored_device_handles)

/-- Known-device list expected after a removal: the first entry holding the
handle is erased when the handle resolves to an index, otherwise the set is
unchanged. -/
def removed_expected (d : Devices) (handle : Nat) : List (Nat × DeviceDesc) :=
  match get_device_index (known_devices d) handle with
  | some i => (known_devices d).eraseIdx i
  | none => known_devices d

/-! ## `Devices::initialize` and lifecycle (`Devices.cpp:318`..`350`)

The two fallible setup steps — loading/initializing the Interception driver
and registering for raw-input device notifications — are environment
conditions, passed as booleans (`interception_ok`, `register_ok`). -/

/-- `Devices::initialized` (`Devices.cpp:343`): whether the Interception
layer is held. -/
def initialized (d : Devices) : Bool := d.has_interception

/-- `Devices::initialize` (`Devices.cpp:318`): a second call with the window
already recorded returns `initialized()` without redoing any setup;
otherwise the window is recorded first, then driver setup and raw-input
registration run, each aborting with `false` on failure (leaving the window
recorded), and only full success installs the Interception layer. -/
def initializeDevices (d : Devices) (window : Nat) (interception_ok register_ok : Bool) :
    Bool × Devices :=
  if d.window ≠ 0 then (initialized d, d)
  else
    let d := { d with window := window }
    if !interception_ok then (false, d)
    else if !register_ok then (false, d)
    else (true, { d with has_interception := true })

/-- `Devices::shutdown` (`Devices.cpp:347`): drop the Interception layer and
clear the recorded window. -/
def shutdownDevices (d : Devices) : Devices :=
  { d with has_interception := false, window := 0 }

end Windows

namespace MacOS

/-! ## Virtual output device (macOS `VirtualDeviceImpl`, Karabiner DriverKit)

`Key` values appear here only as the integers the C++ compares and truncates
(`event.key >= Key::F1`, `static_cast<uint16_t>(event.key)`), so keys are
modelled as their numeric codes. -/

/-- Connection state of the virtual device service client
(`enum class State : int`). -/
inductive State where
  | initializing
  | connected
  | disconnected
deriving DecidableEq

/-- Modelled from the spec: numeric codes of the function-row keys of the
`Key` enum (`runtime/KeyEvent.h`, not under `src/`); the function row
`F1..F12` is modelled as twelve consecutive codes so that the source's
`Key::F1 <= key && key <= Key::F12` range test selects exactly the function
row. -/
def keyF (n : Nat) : Nat := 58 + n

/-! HID usage constants from the IOKit HID usage tables (library headers,
not under `src/`). -/

def kHIDPage_KeyboardOrKeypad : Int := 0x07

def kHIDUsage_KeyboardA : Int := 0x04

def kHIDUsage_KeyboardRightGUI : Int := 0xE7

def kHIDUsage_GD_DoNotDisturb : Nat := 0x9B

def kHIDUsage_Csmr_DisplayBrightnessIncrement : Nat := 0x6F

def kHIDUsage_Csmr_DisplayBrightnessDecrement : Nat := 0x70

def kHIDUsage_Csmr_ACDesktopShowAllWindows : Nat := 0x29F

def kHIDUsage_Csmr_ACSearch : Nat := 0x221

def kHIDUsage_Csmr_VoiceCommand : Nat := 0xCF

def kHIDUsage_Csmr_ScanPreviousTrack : Nat := 0xB6

def kHIDUsage_Csmr_PlayOrPause : Nat := 0xCD

def kHIDUsage_Csmr_ScanNextTrack : Nat := 0xB5

def kHIDUsage_Csmr_Mute : Nat := 0xE2

def kHIDUsage_Csmr_VolumeDecrement : Nat := 0xEA

def kHIDUsage_Csmr_VolumeIncrement : Nat := 0xE9

/-- State of `VirtualDeviceImpl`: connection state, the three per-category
held-key sets backing the `hid_report` objects, and the secondary-layer
flag (`m_fn_key_hold`). -/
structure VirtualDeviceImpl where
  m_state : State
  m_keyboard : List Nat
  m_consumer : List Nat
  m_desktop : List Nat
  m_fn_key_hold : Bool
deriving DecidableEq

/-- A report posted to the service (`async_post_report`): the full current
held-key set of one output category, keys in insertion order. -/
inductive Report where
  | keyboard (keys : List Nat)
  | consumer (keys : List Nat)
  | desktop (keys : List Nat)
deriving DecidableEq

/-- `keys.insert` of the `hid_report` key set: append if absent. -/
def keysInsert (l : List Nat) (k : Nat) : List Nat := if k ∈ l then l else l ++ [k]

/-- `keys.erase` of the `hid_report` key set: remove the usage. -/
def keysErase (l : List Nat) (k : Nat) : List Nat := l.filter (fun x => x ≠ k)

/-- The function-row-to-consumer-usage substitution switch inside
`send_key_event`; the `default` label shares the `Key::F1` branch, and `F6`
never reaches this switch (it is routed to the generic-desktop report
first). -/
def fnSubstitute (key : Nat) : Nat :=
  if key = keyF 2 then kHIDUsage_Csmr_DisplayBrightnessIncrement
  else if key = keyF 3 then kHIDUsage_Csmr_ACDesktopShowAllWindows
  else if key = keyF 4 then kHIDUsage_Csmr_ACSearch
  else if key = keyF 5 then kHIDUsage_Csmr_VoiceCommand
  else if key = keyF 7 then kHIDUsage_Csmr_ScanPreviousTrack
  else if key = keyF 8 then kHIDUsage_Csmr_PlayOrPause
  else if key = keyF 9 then kHIDUsage_Csmr_ScanNextTrack
  else if key = keyF 10 then kHIDUsage_Csmr_Mute
  else if key = keyF 11 then kHIDUsage_Csmr_VolumeDecrement
  else if key = keyF 12 then kHIDUsage_Csmr_VolumeIncrement
  else kHIDUsage_Csmr_DisplayBrightnessDecrement

/-- A canonical event as this sink sees it: numeric key code and
transition. -/
structure KeyEventM where
  key : Nat
  state : Keymapper.KeyState
deriving DecidableEq

/-- `VirtualDeviceImpl::send_key_event`: a no-op returning `false` unless
connected; otherwise classify the key — `F6` (secondary layer inactive) to
the generic-desktop do-not-disturb usage, the rest of the function row
(secondary layer inactive) to the consumer substitution table, everything
else to the standard keyboard report as the truncated key code — update that
category's held-key set (insert on Down, erase on Up) and post the
category's full report. -/
def send_key_event (d : VirtualDeviceImpl) (e : KeyEventM) :
    Bool × VirtualDeviceImpl × List Report :=
  if d.m_state ≠ State.connected then (false, d, [])
  else if !d.m_fn_key_hold ∧ e.key = keyF 6 then
    let ks := if e.state = .Down then keysInsert d.m_desktop kHIDUsage_GD_DoNotDisturb
      else keysErase d.m_desktop kHIDUsage_GD_DoNotDisturb
    (true, { d with m_desktop := ks }, [.desktop ks])
  else if !d.m_fn_key_hold ∧ keyF 1 ≤ e.key ∧ e.key ≤ keyF 12 then
    let key := fnSubstitute e.key
    let ks := if e.state = .Down then keysInsert d.m_consumer key
      else keysErase d.m_consumer key
    (true, { d with m_consumer := ks }, [.consumer ks])
  else
    let key := e.key % 65536
    let ks := if e.state = .Down then keysInsert d.m_keyboard key
      else keysErase d.m_keyboard key
    (true, { d with m_keyboard := ks }, [.keyboard ks])

/-- `VirtualDeviceImpl::send_event`: reject a keyboard-page usage outside
the legal `KeyboardA..KeyboardRightGUI` scancode range; for the reserved
page `0xFF` set the secondary-layer flag from the value; return `true`
otherwise; never post a report. -/
def send_event (d : VirtualDeviceImpl) (page usage value : Int) :
    Bool × VirtualDeviceImpl × List Report :=
  if page = kHIDPage_KeyboardOrKeypad ∧
      (usage < kHIDUsage_KeyboardA ∨ usage > kHIDUsage_KeyboardRightGUI) then
    (false, d, [])
  else if page = 0xFF then
    (true, { d with m_fn_key_hold := value ≠ 0 }, [])
  else
    (true, d, [])

/-! ## `VirtualDeviceImpl::create`: bounded connection wait

`create` installs the service callbacks, starts the client asynchronously,
then polls `m_state` (an atomic the callbacks store to from the dispatcher
thread) up to 30 times at 100 ms, and finally compares one more load against
`connected`.  The model abstracts real time away and quantifies over the
sequence of values the successive `m_state.load()` calls observe (`obs i` is
the `i`-th load), constrained by the callback-driven state machine. -/

/-- How the service callbacks may move the connection state between two
consecutive loads: from `initializing`, `virtual_hid_keyboard_ready` (which
connects only while `initializing`) or any failure signal may fire; from
`connected`, only the failure signals (`connect_failed`, `closed`,
`error_occurred`, `driver_version_mismatched`) may fire, all storing
`disconnected`; no callback ever leaves `disconnected`. -/
def reach : State → State → Bool
  | .initializing, _ => true
  | .connected, .connected => true
  | .connected, .disconnected => true
  | .disconnected, .disconnected => true
  | _, _ => false

/-- A load sequence is valid when consecutive loads are related by the
callback state machine. -/
def valid_obs (obs : Nat → State) : Prop :=
  ∀ i, reach (obs i) (obs (i + 1)) = true

/-- The polling loop of `create` (`for (auto i = 0; (m_state.load() ==
State::initializing) && i < 30; i++)`), fuel-structural: returns the loop
index at exit; the condition check at index `i` observes load `i`.  Fuel 31
is enough, as the `i < 30` guard exits by then. -/
def create_loop (obs : Nat → State) : Nat → Nat → Nat
  | i, 0 => i
  | i, fuel + 1 =>
    if obs i = State.initializing ∧ i < 30 then create_loop obs (i + 1) fuel else i

/-- `VirtualDeviceImpl::create`, abstracted over the observed load sequence:
poll until a load leaves `initializing` or the 30-poll bound is hit, then
return whether one final load observes `connected`. -/
def create (obs : Nat → State) : Bool :=
  decide (obs (create_loop obs 0 31 + 1) = State.connected)

end MacOS

/-! ## Theorems -/

namespace Windows

/-! Helper lemmas for the symmetry of `match_hardware_ids`. -/

/-- Every character of a matched literal sequence occurs in the input. -/
theorem mem_of_dropPrefixChars {c : Char} :
    ∀ {ps l r : List Char}, dropPrefixChars ps l = some r → c ∈ ps → c ∈ l := by
  intro ps
  induction ps with
  | nil => intro l r _ hc; cases hc
  | cons p ps ih =>
    intro l r hdrop hc
    cases l with
    | nil => simp [dropPrefixChars] at hdrop
    | cons x xs =>
      simp only [dropPrefixChars] at hdrop
      by_cases hx : x = p
      · subst hx
        simp only [if_pos rfl] at hdrop
        rcases List.mem_cons.mp hc with h | h
        · exact h ▸ List.mem_cons_self x xs
        · exact List.mem_cons_of_mem _ (ih hdrop h)
      · simp [hx] at hdrop

/-- A hardware id that parses to a vendor/product/revision triple starts with
`HID\`, hence contains a backslash. -/
theorem contains_backslash_of_get_vid_pid_rev {s : String} {t : Nat × Nat × Nat}
    (h : get_vid_pid_rev s = some t) : s.toList.contains '\\' = true := by
  have hdrop : ∃ r, dropPrefixChars "HID\\VID_".toList s.toList = some r := by
    cases hd : dropPrefixChars "HID\\VID_".toList s.toList with
    | none =>
      rw [get_vid_pid_rev, hd] at h
      simp at h
    | some r => exact ⟨r, rfl⟩
  obtain ⟨r, hr⟩ := hdrop
  have : '\\' ∈ s.toList :=
    mem_of_dropPrefixChars hr (by decide)
  simpa [List.contains, List.elem_iff] using this

/-- C6: the hardware-id list matching relation is symmetric: whenever
`match_hardware_ids A B` returns true, `match_hardware_ids B A` returns
true as well. -/
theorem match_hardware_ids_symm (A B : List String)
    (h : match_hardware_ids A B = true) : match_hardware_ids B A = true := by
  simp only [match_hardware_ids, List.any_eq_true, Bool.and_eq_true,
    Bool.or_eq_true, beq_iff_eq] at h ⊢
  obtain ⟨a, ha, hslash, b, hb, hcase⟩ := h
  rcases hcase with heq | ⟨hsome, htriple⟩
  · subst heq
    exact ⟨a, hb, hslash, a, ha, Or.inl rfl⟩
  · obtain ⟨t, ht⟩ := Option.isSome_iff_exists.mp hsome
    have htb : get_vid_pid_rev b = some t := by rw [← htriple, ht]
    refine ⟨b, hb, contains_backslash_of_get_vid_pid_rev htb, a, ha, Or.inr ?_⟩
    constructor
    · rw [htb]; rfl
    · rw [htb, ht]

/-- Witness for C6 at a concrete input: the two singleton lists match in one
direction by triple equality (`0xa/0xb/0xc` in lower case versus upper case),
so symmetry yields the reverse match. -/
theorem match_hardware_ids_symm_witness :
    match_hardware_ids ["HID\\VID_A&PID_B&REV_C"] ["HID\\VID_a&PID_b&REV_c"] = true :=
  match_hardware_ids_symm ["HID\\VID_a&PID_b&REV_c"] ["HID\\VID_A&PID_B&REV_C"]
    (by decide)

/-- The inner loop of `match_hardware_ids` succeeds exactly when the
instrumented inner loop finds an accepting entry of `list_b`. -/
theorem any_entry_eq_reason (a : String) (list_b : List String) :
    (list_b.any fun b =>
      a == b || ((get_vid_pid_rev a).isSome && get_vid_pid_rev a == get_vid_pid_rev b)) =
    (match_entry_reason a list_b).isSome := by
  induction list_b with
  | nil => rfl
  | cons b bs ihb =>
    rw [List.any_cons, match_entry_reason]
    cases heq : (a == b) with
    | true => simp
    | false =>
      rw [Bool.false_or]
      cases htrip : ((get_vid_pid_rev a).isSome && get_vid_pid_rev a == get_vid_pid_rev b) with
      | true => simp
      | false =>
        rw [Bool.false_or]
        simpa using ihb

/-- The instrumentation is faithful: `match_hardware_ids` succeeds exactly
when the instrumented variant finds an accepting pair. -/
theorem match_hardware_ids_eq_reason_isSome (list_a list_b : List String) :
    match_hardware_ids list_a list_b = (match_hardware_ids_reason list_a list_b).isSome := by
  induction list_a with
  | nil => rfl
  | cons a rest ih =>
    rw [match_hardware_ids, List.any_cons, match_hardware_ids_reason]
    have hrest : (rest.any fun a =>
        a.toList.contains '\\' && list_b.any fun b =>
          a == b || ((get_vid_pid_rev a).isSome && get_vid_pid_rev a == get_vid_pid_rev b)) =
        (match_hardware_ids_reason rest list_b).isSome := ih
    cases hslash : a.toList.contains '\\' with
    | false =>
      rw [Bool.false_and, Bool.false_or]
      simpa using hrest
    | true =>
      rw [Bool.true_and, any_entry_eq_reason]
      cases hr : match_entry_reason a list_b with
      | none => simpa using hrest
      | some p => simp

/-- C7: the composite-device hardware-id list with the two entries
`HID\VID_1&PID_2&REV_3` and `HID\VID_1&PID_2&REV_3\MI_00` matches a list
holding only the second entry, and the accepting pair is the first entry of
the left list against the sole entry of the right list — two distinct
strings that parse to the same `(vendor, product, revision)` triple
`(1, 2, 3)` — so exact string equality establishes no match here: the
triple comparison does (flag `false` in the instrumented run). -/
theorem match_hardware_ids_triple_example :
    match_hardware_ids
        ["HID\\VID_1&PID_2&REV_3", "HID\\VID_1&PID_2&REV_3\\MI_00"]
        ["HID\\VID_1&PID_2&REV_3\\MI_00"] = true ∧
    match_hardware_ids_reason
        ["HID\\VID_1&PID_2&REV_3", "HID\\VID_1&PID_2&REV_3\\MI_00"]
        ["HID\\VID_1&PID_2&REV_3\\MI_00"] =
      some ("HID\\VID_1&PID_2&REV_3", "HID\\VID_1&PID_2&REV_3\\MI_00", false) ∧
    "HID\\VID_1&PID_2&REV_3" ≠ "HID\\VID_1&PID_2&REV_3\\MI_00" ∧
    get_vid_pid_rev "HID\\VID_1&PID_2&REV_3" = some (1, 2, 3) ∧
    get_vid_pid_rev "HID\\VID_1&PID_2&REV_3\\MI_00" = some (1, 2, 3) := by
  exact ⟨by decide, by decide, by decide, by decide, by decide⟩

/-- Recomposition of an extended scan code: when the three `0xE000` bits are
all set and the code fits 16 bits, clearing them and or-ing them back is the
identity. -/
theorem and_1FFF_or_E000 (c : Nat) (h1 : c < 65536) (h2 : c &&& 0xE000 = 0xE000) :
    (c &&& 0x1FFF) ||| 0xE000 = c := by
  apply Nat.eq_of_testBit_eq
  intro i
  have hbit := congrArg (fun x => x.testBit i) h2
  simp only [Nat.testBit_and] at hbit
  rw [Nat.testBit_or, Nat.testBit_and]
  by_cases hB : Nat.testBit 0xE000 i = true
  · rw [hB, Bool.and_true] at hbit
    rw [hB, hbit, Bool.or_true]
  · by_cases hA : Nat.testBit 0x1FFF i = true
    · have hB' : Nat.testBit 0xE000 i = false := by
        cases h : Nat.testBit 0xE000 i
        · rfl
        · exact absurd h hB
      rw [hA, hB', Bool.and_true, Bool.or_false]
    · have hi : 16 ≤ i := by
        by_contra hlt
        push_neg at hlt
        interval_cases i <;> revert hA hB <;> decide
      have hc : c.testBit i = false := by
        apply Nat.testBit_eq_false_of_lt
        calc c < 65536 := h1
          _ = 2 ^ 16 := by norm_num
          _ ≤ 2 ^ i := Nat.pow_le_pow_right (by norm_num) hi
      have hA' : Nat.testBit 0x1FFF i = false := by
        apply Nat.testBit_eq_false_of_lt
        calc (0x1FFF : Nat) < 2 ^ 16 := by norm_num
          _ ≤ 2 ^ i := Nat.pow_le_pow_right (by norm_num) hi
      have hB' : Nat.testBit 0xE000 i = false := by
        apply Nat.testBit_eq_false_of_lt
        calc (0xE000 : Nat) < 2 ^ 16 := by norm_num
          _ ≤ 2 ^ i := Nat.pow_le_pow_right (by norm_num) hi
      rw [hA', hB', hc, Bool.and_false, Bool.or_false]

/-- Keyboard round trip: a representable keyboard event survives the
conversion to an Interception key stroke and back (its value is reset, as
keyboard events carry none). -/
theorem roundtrip_keyboard (c : Nat) (s : KeyState) (v : Int) (hlt : c < 65536)
    (hbits : c &&& 0xE000 = 0 ∨ c &&& 0xE000 = 0xE000) :
    get_key_event_keyboard (get_interception_key_stroke ⟨.code c, s, v⟩) =
      ⟨.code c, s, 0⟩ := by
  rcases hbits with hz | he
  · cases s <;>
      simp only [get_interception_key_stroke, get_key_event_keyboard, Key.toCode,
        INTERCEPTION_KEY_UP, INTERCEPTION_KEY_DOWN, INTERCEPTION_KEY_E0,
        Nat.mod_eq_of_lt hlt, hz] <;>
      simp [Nat.or_zero]
  · cases s <;>
      simp only [get_interception_key_stroke, get_key_event_keyboard, Key.toCode,
        INTERCEPTION_KEY_UP, INTERCEPTION_KEY_DOWN, INTERCEPTION_KEY_E0,
        Nat.mod_eq_of_lt hlt, he] <;>
      simp [and_1FFF_or_E000 c hlt he]

/-- C1: for every representable canonical event, converting to a native
Interception stroke and back yields the original event — key and state are
preserved for keyboard and button events, and for wheel events the magnitude
and direction are preserved while the state is normalized to `Up`. -/
theorem key_event_roundtrip (e : KeyEvent) (h : representable e = true) :
    (native_to_canonical (canonical_to_native e)).key = e.key ∧
    (isWheelKey e.key = false → (native_to_canonical (canonical_to_native e)).state = e.state) ∧
    (isWheelKey e.key = true →
      (native_to_canonical (canonical_to_native e)).state = KeyState.Up ∧
      (native_to_canonical (canonical_to_native e)).value = e.value) := by
  obtain ⟨k, s, v⟩ := e
  cases k with
  | none => simp [representable] at h
  | code c =>
    simp only [representable, Bool.and_eq_true, decide_eq_true_eq, Bool.or_eq_true,
      beq_iff_eq] at h
    obtain ⟨hlt, hbits⟩ := h
    have hrt := roundtrip_keyboard c s v hlt hbits
    have hcn : canonical_to_native ⟨Key.code c, s, v⟩ =
        Stroke.keyboard (get_interception_key_stroke ⟨Key.code c, s, v⟩) := rfl
    rw [hcn]
    simp only [native_to_canonical]
    rw [hrt]
    refine ⟨rfl, fun _ => rfl, ?_⟩
    intro hw
    simp [isWheelKey] at hw
  | buttonLeft =>
    cases s <;>
      simp [canonical_to_native, is_keyboard_key, get_interception_mouse_stroke,
        native_to_canonical, isWheelKey] <;>
      decide
  | buttonRight =>
    cases s <;>
      simp [canonical_to_native, is_keyboard_key, get_interception_mouse_stroke,
        native_to_canonical, isWheelKey] <;>
      decide
  | buttonMiddle =>
    cases s <;>
      simp [canonical_to_native, is_keyboard_key, get_interception_mouse_stroke,
        native_to_canonical, isWheelKey] <;>
      decide
  | buttonBack =>
    cases s <;>
      simp [canonical_to_native, is_keyboard_key, get_interception_mouse_stroke,
        native_to_canonical, isWheelKey] <;>
      decide
  | buttonForward =>
    cases s <;>
      simp [canonical_to_native, is_keyboard_key, get_interception_mouse_stroke,
        native_to_canonical, isWheelKey] <;>
      decide
  | wheelUp =>
    simp only [representable, Bool.and_eq_true, decide_eq_true_eq] at h
    obtain ⟨h1, _⟩ := h
    have hv0 : v ≠ 0 := by omega
    have hvn : ¬ (v < 0) := by omega
    have habs : |v| = v := abs_of_nonneg (by omega)
    have w1 : (1024 : Nat) &&& 1 = 0 := by decide
    have w2 : (1024 : Nat) &&& 2 = 0 := by decide
    have w4 : (1024 : Nat) &&& 4 = 0 := by decide
    have w8 : (1024 : Nat) &&& 8 = 0 := by decide
    have w16 : (1024 : Nat) &&& 16 = 0 := by decide
    have w32 : (1024 : Nat) &&& 32 = 0 := by decide
    have w64 : (1024 : Nat) &&& 64 = 0 := by decide
    have w128 : (1024 : Nat) &&& 128 = 0 := by decide
    have w256 : (1024 : Nat) &&& 256 = 0 := by decide
    have w512 : (1024 : Nat) &&& 512 = 0 := by decide
    have w1024 : (1024 : Nat) &&& 1024 = 1024 := by decide
    have w2048 : (1024 : Nat) &&& 2048 = 0 := by decide
    refine ⟨?_, fun hw => ?_, fun _ => ⟨?_, ?_⟩⟩
    case refine_2 => simp [isWheelKey] at hw
    all_goals
      simp [canonical_to_native, is_keyboard_key, get_interception_mouse_stroke,
        native_to_canonical, get_key_event_mouse, hv0, hvn, habs, mul_one,
        w1, w2, w4, w8, w16, w32, w64, w128, w256, w512, w1024, w2048,
        INTERCEPTION_MOUSE_BUTTON_1_DOWN, INTERCEPTION_MOUSE_BUTTON_1_UP,
        INTERCEPTION_MOUSE_BUTTON_2_DOWN, INTERCEPTION_MOUSE_BUTTON_2_UP,
        INTERCEPTION_MOUSE_BUTTON_3_DOWN, INTERCEPTION_MOUSE_BUTTON_3_UP,
        INTERCEPTION_MOUSE_BUTTON_4_DOWN, INTERCEPTION_MOUSE_BUTTON_4_UP,
        INTERCEPTION_MOUSE_BUTTON_5_DOWN, INTERCEPTION_MOUSE_BUTTON_5_UP,
        INTERCEPTION_MOUSE_WHEEL, INTERCEPTION_MOUSE_HWHEEL]
  | wheelDown =>
    simp only [representable, Bool.and_eq_true, decide_eq_true_eq] at h
    obtain ⟨h1, _⟩ := h
    have hv0 : v ≠ 0 := by omega
    have hneg : -v < 0 := by omega
    have habs : |v| = v := abs_of_nonneg (by omega)
    have w1 : (1024 : Nat) &&& 1 = 0 := by decide
    have w2 : (1024 : Nat) &&& 2 = 0 := by decide
    have w4 : (1024 : Nat) &&& 4 = 0 := by decide
    have w8 : (1024 : Nat) &&& 8 = 0 := by decide
    have w16 : (1024 : Nat) &&& 16 = 0 := by decide
    have w32 : (1024 : Nat) &&& 32 = 0 := by decide
    have w64 : (1024 : Nat) &&& 64 = 0 := by decide
    have w128 : (1024 : Nat) &&& 128 = 0 := by decide
    have w256 : (1024 : Nat) &&& 256 = 0 := by decide
    have w512 : (1024 : Nat) &&& 512 = 0 := by decide
    have w1024 : (1024 : Nat) &&& 1024 = 1024 := by decide
    have w2048 : (1024 : Nat) &&& 2048 = 0 := by decide
    refine ⟨?_, fun hw => ?_, fun _ => ⟨?_, ?_⟩⟩
    case refine_2 => simp [isWheelKey] at hw
    all_goals
      simp [canonical_to_native, is_keyboard_key, get_interception_mouse_stroke,
        native_to_canonical, get_key_event_mouse, hv0, hneg, abs_neg, habs, mul_neg_one,
        w1, w2, w4, w8, w16, w32, w64, w128, w256, w512, w1024, w2048,
        INTERCEPTION_MOUSE_BUTTON_1_DOWN, INTERCEPTION_MOUSE_BUTTON_1_UP,
        INTERCEPTION_MOUSE_BUTTON_2_DOWN, INTERCEPTION_MOUSE_BUTTON_2_UP,
        INTERCEPTION_MOUSE_BUTTON_3_DOWN, INTERCEPTION_MOUSE_BUTTON_3_UP,
        INTERCEPTION_MOUSE_BUTTON_4_DOWN, INTERCEPTION_MOUSE_BUTTON_4_UP,
        INTERCEPTION_MOUSE_BUTTON_5_DOWN, INTERCEPTION_MOUSE_BUTTON_5_UP,
        INTERCEPTION_MOUSE_WHEEL, INTERCEPTION_MOUSE_HWHEEL]
  | wheelLeft =>
    simp only [representable, Bool.and_eq_true, decide_eq_true_eq] at h
    obtain ⟨h1, _⟩ := h
    have hv0 : v ≠ 0 := by omega
    have hneg : -v < 0 := by omega
    have habs : |v| = v := abs_of_nonneg (by omega)
    have w1 : (2048 : Nat) &&& 1 = 0 := by decide
    have w2 : (2048 : Nat) &&& 2 = 0 := by decide
    have w4 : (2048 : Nat) &&& 4 = 0 := by decide
    have w8 : (2048 : Nat) &&& 8 = 0 := by decide
    have w16 : (2048 : Nat) &&& 16 = 0 := by decide
    have w32 : (2048 : Nat) &&& 32 = 0 := by decide
    have w64 : (2048 : Nat) &&& 64 = 0 := by decide
    have w128 : (2048 : Nat) &&& 128 = 0 := by decide
    have w256 : (2048 : Nat) &&& 256 = 0 := by decide
    have w512 : (2048 : Nat) &&& 512 = 0 := by decide
    have w1024 : (2048 : Nat) &&& 1024 = 0 := by decide
    have w2048 : (2048 : Nat) &&& 2048 = 2048 := by decide
    refine ⟨?_, fun hw => ?_, fun _ => ⟨?_, ?_⟩⟩
    case refine_2 => simp [isWheelKey] at hw
    all_goals
      simp [canonical_to_native, is_keyboard_key, get_interception_mouse_stroke,
        native_to_canonical, get_key_event_mouse, hv0, hneg, abs_neg, habs, mul_neg_one,
        w1, w2, w4, w8, w16, w32, w64, w128, w256, w512, w1024, w2048,
        INTERCEPTION_MOUSE_BUTTON_1_DOWN, INTERCEPTION_MOUSE_BUTTON_1_UP,
        INTERCEPTION_MOUSE_BUTTON_2_DOWN, INTERCEPTION_MOUSE_BUTTON_2_UP,
        INTERCEPTION_MOUSE_BUTTON_3_DOWN, INTERCEPTION_MOUSE_BUTTON_3_UP,
        INTERCEPTION_MOUSE_BUTTON_4_DOWN, INTERCEPTION_MOUSE_BUTTON_4_UP,
        INTERCEPTION_MOUSE_BUTTON_5_DOWN, INTERCEPTION_MOUSE_BUTTON_5_UP,
        INTERCEPTION_MOUSE_WHEEL, INTERCEPTION_MOUSE_HWHEEL]
  | wheelRight =>
    simp only [representable, Bool.and_eq_true, decide_eq_true_eq] at h
    obtain ⟨h1, _⟩ := h
    have hv0 : v ≠ 0 := by omega
    have hvn : ¬ (v < 0) := by omega
    have habs : |v| = v := abs_of_nonneg (by omega)
    have w1 : (2048 : Nat) &&& 1 = 0 := by decide
    have w2 : (2048 : Nat) &&& 2 = 0 := by decide
    have w4 : (2048 : Nat) &&& 4 = 0 := by decide
    have w8 : (2048 : Nat) &&& 8 = 0 := by decide
    have w16 : (2048 : Nat) &&& 16 = 0 := by decide
    have w32 : (2048 : Nat) &&& 32 = 0 := by decide
    have w64 : (2048 : Nat) &&& 64 = 0 := by decide
    have w128 : (2048 : Nat) &&& 128 = 0 := by decide
    have w256 : (2048 : Nat) &&& 256 = 0 := by decide
    have w512 : (2048 : Nat) &&& 512 = 0 := by decide
    have w1024 : (2048 : Nat) &&& 1024 = 0 := by decide
    have w2048 : (2048 : Nat) &&& 2048 = 2048 := by decide
    refine ⟨?_, fun hw => ?_, fun _ => ⟨?_, ?_⟩⟩
    case refine_2 => simp [isWheelKey] at hw
    all_goals
      simp [canonical_to_native, is_keyboard_key, get_interception_mouse_stroke,
        native_to_canonical, get_key_event_mouse, hv0, hvn, habs, mul_one,
        w1, w2, w4, w8, w16, w32, w64, w128, w256, w512, w1024, w2048,
        INTERCEPTION_MOUSE_BUTTON_1_DOWN, INTERCEPTION_MOUSE_BUTTON_1_UP,
        INTERCEPTION_MOUSE_BUTTON_2_DOWN, INTERCEPTION_MOUSE_BUTTON_2_UP,
        INTERCEPTION_MOUSE_BUTTON_3_DOWN, INTERCEPTION_MOUSE_BUTTON_3_UP,
        INTERCEPTION_MOUSE_BUTTON_4_DOWN, INTERCEPTION_MOUSE_BUTTON_4_UP,
        INTERCEPTION_MOUSE_BUTTON_5_DOWN, INTERCEPTION_MOUSE_BUTTON_5_UP,
        INTERCEPTION_MOUSE_WHEEL, INTERCEPTION_MOUSE_HWHEEL]

/-- Witness for C1 at concrete inputs: the extended-code keyboard event
`0xE048` (cursor up) going down, and a wheel event of magnitude `3`. -/
theorem key_event_roundtrip_witness :
    representable ⟨.code 0xE048, .Down, 0⟩ = true ∧
    (native_to_canonical (canonical_to_native ⟨.code 0xE048, .Down, 0⟩)).key =
      Key.code 0xE048 := by
  refine ⟨by decide, ?_⟩
  exact (key_event_roundtrip ⟨.code 0xE048, .Down, 0⟩ (by decide)).1

/-- C4: a native stroke whose driver slot resolves to no OS device handle —
no cached identity-map entry and no hardware-id match among the registered
devices — is re-injected to the driver unchanged, the host is never
notified, and the most-recent keyboard and mouse slots are untouched. -/
theorem unresolved_stroke_passthrough (st : Interception) (hwids : Nat → List String)
    (host : Nat → Nat → Bool) (device : Nat) (stroke : Stroke)
    (hcache : lookup0 st.handle_by_device device = 0)
    (hmatch : ∀ p ∈ st.handle_with_hardware_ids, match_hardware_ids p.2 (hwids device) = false) :
    (thread_step st hwids host device stroke).host_called = none ∧
    (thread_step st hwids host device stroke).injected = some stroke ∧
    (thread_step st hwids host device stroke).st.last_keyboard = st.last_keyboard ∧
    (thread_step st hwids host device stroke).st.last_mouse = st.last_mouse := by
  have hfind : st.handle_with_hardware_ids.find? (fun p => match_hardware_ids p.2 (hwids device))
      = none := by
    apply List.find?_eq_none.mpr
    intro p hp
    simp [hmatch p hp]
  have hresolve : get_device_handle st hwids device = (0, st) := by
    unfold get_device_handle
    simp [hcache, get_device_handle_by_hardware_id, hfind]
  unfold thread_step
  rw [hresolve]
  simp

/-- Witness for C4 at a concrete input: an empty identity map resolves
nothing, so a left-button stroke from slot 11 passes through. -/
theorem unresolved_stroke_passthrough_witness :
    (thread_step ⟨[], [], [], 0, 0⟩ (fun _ => []) (fun _ _ => true) 11
        (.mouse { state := 1 })).host_called = none ∧
    (thread_step ⟨[], [], [], 0, 0⟩ (fun _ => []) (fun _ _ => true) 11
        (.mouse { state := 1 })).injected = some (.mouse { state := 1 }) := by
  have h := unresolved_stroke_passthrough ⟨[], [], [], 0, 0⟩ (fun _ => []) (fun _ _ => true) 11
    (.mouse { state := 1 }) (by decide) (by intro p hp; simp at hp)
  exact ⟨h.1, h.2.1⟩

/-- C10: the host-facing encoding keeps only the low 16 bits of the key, the
low 5 bits of the state, and the low 11 bits of the value, so two events
with equal key and state whose values are congruent modulo `2^11` produce
identical `WPARAM` words — the host cannot distinguish them. -/
theorem encode_input_message_congr (e1 e2 : KeyEvent)
    (hk : e1.key = e2.key) (hs : e1.state = e2.state)
    (hv : e1.value % 2048 = e2.value % 2048) :
    encode_input_message e1 = encode_input_message e2 := by
  unfold encode_input_message
  rw [hk, hs, hv]

/-- Witness for C10 at a concrete input: wheel magnitudes 1 and 2049 are
congruent modulo `2^11` and encode identically. -/
theorem encode_input_message_congr_witness :
    encode_input_message ⟨.wheelUp, .Up, 1⟩ = encode_input_message ⟨.wheelUp, .Up, 2049⟩ :=
  encode_input_message_congr ⟨.wheelUp, .Up, 1⟩ ⟨.wheelUp, .Up, 2049⟩ rfl rfl (by decide)

/-- The scan keeps exactly the grabbed entries and moves exactly the others,
both in scan order. -/
theorem apply_scan_eq_filter (filters : List GrabDeviceFilter)
    (l : List (Nat × DeviceDesc)) :
    apply_scan filters l =
      (l.filter (grabs filters), l.filter (fun e => !grabs filters e)) := by
  induction l with
  | nil => rfl
  | cons e rest ih =>
    rw [apply_scan, ih]
    cases hg : grabs filters e <;> simp [List.filter_cons, hg]

/-- Partition correctness of one `apply_device_filters` run over a state with
an empty ignored partition: membership in the captured (resp. ignored)
partition is equivalent to being a known device the filters grab (resp. do
not grab). -/
theorem apply_partition (filters : List GrabDeviceFilter) (w : Nat) (hi : Bool)
    (l : List (Nat × DeviceDesc)) (e : Nat × DeviceDesc) :
    let d := apply_device_filters ⟨w, hi, filters, l, []⟩
    (e ∈ d.device_handles ↔ e ∈ known_devices d ∧ grabs filters e = true) ∧
    (e ∈ d.ignored_device_handles ↔ e ∈ known_devices d ∧ grabs filters e = false) ∧
    (e ∈ known_devices d ↔ e ∈ l) := by
  simp only [apply_device_filters, known_devices, apply_scan_eq_filter]
  constructor
  · simp only [List.mem_filter, List.nil_append, List.mem_append]
    constructor
    · rintro ⟨hm, hg⟩
      exact ⟨Or.inl ⟨hm, hg⟩, hg⟩
    · rintro ⟨hor, hg⟩
      rcases hor with ⟨hm, _⟩ | ⟨_, hng⟩
      · exact ⟨hm, hg⟩
      · simp [hg] at hng
  constructor
  · simp only [List.mem_filter, List.nil_append, List.mem_append, Bool.not_eq_true']
    constructor
    · rintro ⟨hm, hng⟩
      exact ⟨Or.inr ⟨hm, hng⟩, hng⟩
    · rintro ⟨hor, hng⟩
      rcases hor with ⟨_, hg⟩ | ⟨hm, _⟩
      · rw [hg] at hng
        cases hng
      · exact ⟨hm, hng⟩
  · simp only [List.nil_append, List.mem_append, List.mem_filter]
    constructor
    · rintro (⟨hm, _⟩ | ⟨hm, _⟩) <;> exact hm
    · intro hm
      cases hg : grabs filters e
      · exact Or.inr ⟨hm, rfl⟩
      · exact Or.inl ⟨hm, rfl⟩

/-- A repartitioning run (`apply_device_filters` over a freshly reset state)
establishes the partition invariant and preserves the known-device set. -/
theorem apply_partition_ok (filters : List GrabDeviceFilter) (w : Nat) (hi : Bool)
    (l : List (Nat × DeviceDesc)) :
    partition_ok (apply_device_filters ⟨w, hi, filters, l, []⟩) ∧
    (∀ e, e ∈ known_devices (apply_device_filters ⟨w, hi, filters, l, []⟩) ↔ e ∈ l) := by
  constructor
  · intro e
    have h := apply_partition filters w hi l e
    refine ⟨h.1, h.2.1, ?_⟩
    rintro ⟨h1, h2⟩
    have hg1 := (h.1.mp h1).2
    have hg2 := (h.2.1.mp h2).2
    rw [hg1] at hg2
    cases hg2
  · intro e
    exact (apply_partition filters w hi l e).2.2

/-- C2: after `set_grab_filters`, `on_device_attached`, or
`on_device_removed`, every known device sits in exactly one roster partition
— captured exactly when the active filters grab it — and the union of the
two partitions is the full device set (unchanged by a filter change, grown
by the attached entry, shrunk by the removed entry). -/
theorem roster_partition_invariant (d : Devices) (F : List GrabDeviceFilter)
    (handle : Nat) (desc : DeviceDesc) (removed : Nat) :
    (partition_ok (set_grab_filters d F) ∧
      (∀ e, e ∈ known_devices (set_grab_filters d F) ↔ e ∈ known_devices d)) ∧
    (partition_ok (on_device_attached d handle desc) ∧
      (∀ e, e ∈ known_devices (on_device_attached d handle desc) ↔
        e ∈ known_devices d ∨ e = (handle, desc))) ∧
    (partition_ok (on_device_removed d removed) ∧
      (∀ e, e ∈ known_devices (on_device_removed d removed) ↔
        e ∈ removed_expected d removed)) := by
  obtain ⟨w, hi, F0, caps, ign⟩ := d
  refine ⟨⟨?_, ?_⟩, ⟨?_, ?_⟩, ?_⟩
  · exact (apply_partition_ok F w hi (caps ++ ign)).1
  · intro e
    show e ∈ known_devices (apply_device_filters ⟨w, hi, F, caps ++ ign, []⟩) ↔ _
    rw [(apply_partition_ok F w hi (caps ++ ign)).2 e]
    simp [known_devices]
  · exact (apply_partition_ok F0 w hi ((caps ++ ign) ++ [(handle, desc)])).1
  · intro e
    show e ∈ known_devices
        (apply_device_filters ⟨w, hi, F0, (caps ++ ign) ++ [(handle, desc)], []⟩) ↔ _
    rw [(apply_partition_ok F0 w hi ((caps ++ ign) ++ [(handle, desc)])).2 e]
    simp [known_devices, or_assoc]
  · cases hidx : get_device_index (caps ++ ign) removed with
    | some i =>
      have hred : on_device_removed ⟨w, hi, F0, caps, ign⟩ removed =
          apply_device_filters ⟨w, hi, F0, (caps ++ ign).eraseIdx i, []⟩ := by
        simp only [on_device_removed, reset_device_filters, hidx]
      have hexp : removed_expected ⟨w, hi, F0, caps, ign⟩ removed =
          (caps ++ ign).eraseIdx i := by
        simp only [removed_expected, known_devices, hidx]
      rw [hred, hexp]
      refine ⟨(apply_partition_ok F0 w hi ((caps ++ ign).eraseIdx i)).1, ?_⟩
      intro e
      rw [(apply_partition_ok F0 w hi ((caps ++ ign).eraseIdx i)).2 e]
    | none =>
      have hred : on_device_removed ⟨w, hi, F0, caps, ign⟩ removed =
          apply_device_filters ⟨w, hi, F0, caps ++ ign, []⟩ := by
        simp only [on_device_removed, reset_device_filters, hidx]
      have hexp : removed_expected ⟨w, hi, F0, caps, ign⟩ removed = caps ++ ign := by
        simp only [removed_expected, known_devices, hidx]
      rw [hred, hexp]
      refine ⟨(apply_partition_ok F0 w hi (caps ++ ign)).1, ?_⟩
      intro e
      rw [(apply_partition_ok F0 w hi (caps ++ ign)).2 e]

/-- Counterexample to C9: after `initialize` fails (driver setup failed, a
non-null window now recorded), a second `initialize` on the same instance
returns `initialized()` — `false` — without re-running the setup, even in an
environment where the setup would now succeed; no retry happens. -/
theorem initializeDevices_no_retry_counterexample :
    ((initializeDevices ⟨0, false, [], [], []⟩ 5 false true).1 = false) ∧
    ((initializeDevices (initializeDevices ⟨0, false, [], [], []⟩ 5 false true).2
        5 true true).1 = false) ∧
    ((initializeDevices (initializeDevices ⟨0, false, [], [], []⟩ 5 false true).2
        5 true true).2 = (initializeDevices ⟨0, false, [], [], []⟩ 5 false true).2) := by
  refine ⟨by decide, by decide, by decide⟩

/-- C9 (amended): a setup failure in `Devices::initialize` is fatal to the
session but not to the process — the call reports `false` and the instance
stays usable — but a subsequent `initialize` on the same instance does not
retry: once a non-null window is recorded it returns the current
`initialized()` state and leaves the instance unchanged; only after
`shutdown()` (which clears the recorded window) does `initialize` re-run the
setup, and with the environment now healthy it returns `true`. -/
theorem initializeDevices_retry_after_shutdown (d : Devices) (w : Nat)
    (ok1 ok2 : Bool) (hw : d.window ≠ 0) :
    initializeDevices d w ok1 ok2 = (initialized d, d) ∧
    (initializeDevices (shutdownDevices d) w true true).1 = true := by
  constructor
  · unfold initializeDevices
    rw [if_pos hw]
  · unfold initializeDevices shutdownDevices
    simp

/-- Witness for C9 (amended) at a concrete input: a failed instance with the
window recorded neither retries nor succeeds, and retries successfully after
`shutdown()`. -/
theorem initializeDevices_retry_after_shutdown_witness :
    initializeDevices ⟨5, false, [], [], []⟩ 5 true true = (false, ⟨5, false, [], [], []⟩) ∧
    (initializeDevices (shutdownDevices ⟨5, false, [], [], []⟩) 5 true true).1 = true := by
  have h := initializeDevices_retry_after_shutdown ⟨5, false, [], [], []⟩ 5 true true
    (by decide)
  exact ⟨h.1, h.2⟩

end Windows

namespace MacOS

/-- C5: `send_event` posts no report for any input; a keyboard-page usage
outside the legal scancode range is rejected with `false` and no state
mutation (the secondary-layer flag and every held-key set are untouched);
the reserved page `0xFF` sets the secondary-layer flag to `value ≠ 0` and
returns `true`. -/
theorem send_event_boundary (d : VirtualDeviceImpl) (page usage value : Int) :
    ((send_event d page usage value).2.2 = []) ∧
    (page = kHIDPage_KeyboardOrKeypad →
      (usage < kHIDUsage_KeyboardA ∨ usage > kHIDUsage_KeyboardRightGUI) →
      send_event d page usage value = (false, d, [])) ∧
    (page = 0xFF →
      send_event d page usage value = (true, { d with m_fn_key_hold := value ≠ 0 }, [])) := by
  refine ⟨?_, ?_, ?_⟩
  · unfold send_event
    split_ifs <;> rfl
  · intro h1 h2
    unfold send_event
    rw [if_pos ⟨h1, h2⟩]
  · intro h255
    have hne : ¬(page = kHIDPage_KeyboardOrKeypad ∧
        (usage < kHIDUsage_KeyboardA ∨ usage > kHIDUsage_KeyboardRightGUI)) := by
      rintro ⟨hp, _⟩
      rw [h255] at hp
      norm_num [kHIDPage_KeyboardOrKeypad] at hp
    unfold send_event
    rw [if_neg hne, if_pos h255]

/-- Witness for C5 at concrete inputs: usage `1000` on the keyboard page is
rejected without mutation, and page `0xFF` with value `1` raises the
secondary-layer flag. -/
theorem send_event_boundary_witness :
    send_event ⟨.connected, [], [], [], false⟩ 7 1000 0 =
      (false, ⟨.connected, [], [], [], false⟩, []) ∧
    send_event ⟨.connected, [], [], [], false⟩ 255 0 1 =
      (true, ⟨.connected, [], [], [], true⟩, []) := by
  constructor
  · exact (send_event_boundary ⟨.connected, [], [], [], false⟩ 7 1000 0).2.1 rfl
      (Or.inr (by norm_num [kHIDUsage_KeyboardRightGUI]))
  · exact (send_event_boundary ⟨.connected, [], [], [], false⟩ 255 0 1).2.2 rfl

/-- C8: from empty held-key sets, connected, secondary layer inactive,
`Down(F1)`, `Down(F2)`, `Up(F1)` return `true` three times and post exactly
three consumer-control reports whose key sets are
`{DisplayBrightnessDecrement}`, then
`{DisplayBrightnessDecrement, DisplayBrightnessIncrement}` (insertion
order), then `{DisplayBrightnessIncrement}`. -/
theorem consumer_report_sequence :
    (send_key_event ⟨.connected, [], [], [], false⟩ ⟨keyF 1, .Down⟩).1 = true ∧
    (send_key_event
        (send_key_event ⟨.connected, [], [], [], false⟩ ⟨keyF 1, .Down⟩).2.1
        ⟨keyF 2, .Down⟩).1 = true ∧
    (send_key_event
        (send_key_event
          (send_key_event ⟨.connected, [], [], [], false⟩ ⟨keyF 1, .Down⟩).2.1
          ⟨keyF 2, .Down⟩).2.1
        ⟨keyF 1, .Up⟩).1 = true ∧
    (send_key_event ⟨.connected, [], [], [], false⟩ ⟨keyF 1, .Down⟩).2.2 =
      [.consumer [kHIDUsage_Csmr_DisplayBrightnessDecrement]] ∧
    (send_key_event
        (send_key_event ⟨.connected, [], [], [], false⟩ ⟨keyF 1, .Down⟩).2.1
        ⟨keyF 2, .Down⟩).2.2 =
      [.consumer [kHIDUsage_Csmr_DisplayBrightnessDecrement,
        kHIDUsage_Csmr_DisplayBrightnessIncrement]] ∧
    (send_key_event
        (send_key_event
          (send_key_event ⟨.connected, [], [], [], false⟩ ⟨keyF 1, .Down⟩).2.1
          ⟨keyF 2, .Down⟩).2.1
        ⟨keyF 1, .Up⟩).2.2 =
      [.consumer [kHIDUsage_Csmr_DisplayBrightnessIncrement]] := by
  decide

/-- Along a valid load sequence, `connected` can only lead to `connected` or
`disconnected`, and `disconnected` is terminal. -/
theorem reach_chain (obs : Nat → State) (h : valid_obs obs) (i j : Nat) (hij : i ≤ j) :
    (obs i = State.connected → obs j = State.connected ∨ obs j = State.disconnected) ∧
    (obs i = State.disconnected → obs j = State.disconnected) := by
  induction j, hij using Nat.le_induction with
  | base => exact ⟨fun hc => Or.inl hc, fun hd => hd⟩
  | succ j hij ih =>
    have hstep := h j
    constructor
    · intro hc
      rcases ih.1 hc with hcj | hdj
      · rw [hcj] at hstep
        cases hj1 : obs (j + 1)
        · rw [hj1] at hstep
          simp [reach] at hstep
        · exact Or.inl rfl
        · exact Or.inr rfl
      · rw [hdj] at hstep
        cases hj1 : obs (j + 1)
        · rw [hj1] at hstep
          simp [reach] at hstep
        · rw [hj1] at hstep
          simp [reach] at hstep
        · exact Or.inr rfl
    · intro hd
      have hdj := ih.2 hd
      rw [hdj] at hstep
      cases hj1 : obs (j + 1)
      · rw [hj1] at hstep
        simp [reach] at hstep
      · rw [hj1] at hstep
        simp [reach] at hstep
      · rfl

/-- C3 (amended): along any valid load sequence, `create` returns `true`
exactly when the final load — the one after the bounded polling loop exits —
observes `connected`; equivalently, `true` requires `connected` to have been
reached by then with no terminal failure signal arriving before the final
load.  In particular `create` returns `false` when no load ever observes
`connected` (timeout included), and `false` when a terminal failure has
already driven the state to `disconnected` at the first load. -/
theorem create_result_characterization (obs : Nat → State) (h : valid_obs obs) :
    (create obs = true ↔
      (∃ j, j ≤ create_loop obs 0 31 + 1 ∧ obs j = State.connected) ∧
      obs (create_loop obs 0 31 + 1) ≠ State.disconnected) ∧
    ((∀ j, obs j ≠ State.connected) → create obs = false) ∧
    (obs 0 = State.disconnected → create obs = false) := by
  refine ⟨⟨?_, ?_⟩, ?_, ?_⟩
  · intro hc
    have hfin : obs (create_loop obs 0 31 + 1) = State.connected := of_decide_eq_true hc
    exact ⟨⟨create_loop obs 0 31 + 1, le_refl _, hfin⟩, by rw [hfin]; simp⟩
  · rintro ⟨⟨j, hj, hcj⟩, hne⟩
    rcases (reach_chain obs h j (create_loop obs 0 31 + 1) hj).1 hcj with hfin | hfin
    · exact decide_eq_true hfin
    · exact absurd hfin hne
  · intro hnever
    apply decide_eq_false
    exact hnever (create_loop obs 0 31 + 1)
  · intro h0
    apply decide_eq_false
    have := (reach_chain obs h 0 (create_loop obs 0 31 + 1) (Nat.zero_le _)).2 h0
    rw [this]
    simp

/-- Witness for C3 (amended) at a concrete load sequence: the service
connects between the first and second load, so `create` returns `true`. -/
theorem create_result_characterization_witness :
    valid_obs (fun i => if i = 0 then State.initializing else State.connected) ∧
    create (fun i => if i = 0 then State.initializing else State.connected) = true := by
  have hv : valid_obs (fun i => if i = 0 then State.initializing else State.connected) := by
    intro i
    cases i <;> simp [reach]
  refine ⟨hv, ?_⟩
  exact (create_result_characterization
      (fun i => if i = 0 then State.initializing else State.connected) hv).1.mpr
    ⟨⟨1, by decide, rfl⟩, by decide⟩

/-- Counterexample to C3 as stated: a valid load sequence where `connected`
is observed within the bounded wait (at the very first load) but a terminal
failure signal flips the state to `disconnected` before the final load —
`create` returns `false` although the connection state reached `Connected`
within the bound. -/
theorem create_connected_reached_counterexample :
    valid_obs (fun i => if i = 0 then State.connected else State.disconnected) ∧
    (∃ j, j ≤ 30 ∧ (fun i => if i = 0 then State.connected else State.disconnected) j =
      State.connected) ∧
    create (fun i => if i = 0 then State.connected else State.disconnected) = false := by
  refine ⟨?_, ⟨0, by norm_num, rfl⟩, by decide⟩
  intro i
  cases i <;> simp [reach]

end MacOS

end Keymapper
